import Mathlib

/-!
Verification development for the sql-press repository: a shallow embedding of
the change/instruction model (change.rs, table.rs, column.rs, index.rs) and of
the Postgres dialect (sql_dialect/mod.rs, sql_dialect/postgres.rs), followed by
theorems settling the frozen claims about the specification.

Modelling conventions: Rust methods that return String and always terminate are
translated as total Lean functions on String; a Rust code path that panics
(todo in postgres.rs add_index) is modelled as an Option-valued function
returning none.  Mutation of the accumulators (Table, ChangeSet) is modelled by
state passing.  Rust str trim is modelled by rustTrim below (both sides of the
trim drop whitespace characters; the strings produced here are ASCII, where the
two coincide).
-/

namespace SqlPress

/-- Mirrors Rust str trim: drop whitespace from both ends of the string. -/
def rustTrim (s : String) : String :=
  ⟨((s.data.dropWhile Char.isWhitespace).reverse.dropWhile Char.isWhitespace).reverse⟩

/-- column.rs DefaultConstraint: None | Plain(String). -/
inductive DefaultConstraint
  | None
  | Plain (s : String)
deriving DecidableEq, Repr

/-- column.rs Constraints struct. -/
structure Constraints where
  primary : Bool
  not_null : Bool
  unique : Bool
  default : DefaultConstraint
deriving DecidableEq, Repr

/-- column.rs Constraints new (same as Default). -/
def Constraints.new : Constraints :=
  { primary := false, not_null := false, unique := false, default := .None }

/-- column.rs ColumnType enum. -/
inductive ColumnType
  | UUID
  | BOOL
  | VARCHAR (size : Nat)
  | REAL
  | INTEGER
  | TEXT
  | TIMESTAMP
  | TIMESTAMPTZ
  | JSONB
deriving DecidableEq, Repr

/-- column.rs ColumnAddChange struct. -/
structure ColumnAddChange where
  name : String
  ct : ColumnType
  with_prefix : Bool
  constraints : Constraints
deriving DecidableEq, Repr

/-- column.rs ColumnAddChange new: with_prefix starts false, constraints empty. -/
def ColumnAddChange.new (name : String) (ct : ColumnType) : ColumnAddChange :=
  { name := name, ct := ct, with_prefix := false, constraints := Constraints.new }

/-- column.rs ColumnAddBuilder struct. -/
structure ColumnAddBuilder where
  inner : ColumnAddChange
deriving DecidableEq, Repr

def ColumnAddBuilder.new (name : String) (ct : ColumnType) : ColumnAddBuilder :=
  { inner := ColumnAddChange.new name ct }

def ColumnAddBuilder.primary (b : ColumnAddBuilder) (v : Bool) : ColumnAddBuilder :=
  { b with inner := { b.inner with constraints := { b.inner.constraints with primary := v } } }

def ColumnAddBuilder.not_null (b : ColumnAddBuilder) (v : Bool) : ColumnAddBuilder :=
  { b with inner := { b.inner with constraints := { b.inner.constraints with not_null := v } } }

def ColumnAddBuilder.unique (b : ColumnAddBuilder) (v : Bool) : ColumnAddBuilder :=
  { b with inner := { b.inner with constraints := { b.inner.constraints with unique := v } } }

def ColumnAddBuilder.default (b : ColumnAddBuilder) (v : DefaultConstraint) : ColumnAddBuilder :=
  { b with inner := { b.inner with constraints := { b.inner.constraints with default := v } } }

def ColumnAddBuilder.build (b : ColumnAddBuilder) : ColumnAddChange :=
  b.inner

/-- column.rs uuid convenience constructor. -/
def uuid (name : String) : ColumnAddBuilder :=
  ColumnAddBuilder.new name .UUID

/-- column.rs varchar convenience constructor: missing size means 255. -/
def varchar (name : String) (size : Option Nat) : ColumnAddBuilder :=
  ColumnAddBuilder.new name (.VARCHAR (size.getD 255))

def boolCol (name : String) : ColumnAddBuilder :=
  ColumnAddBuilder.new name .BOOL

def realCol (name : String) : ColumnAddBuilder :=
  ColumnAddBuilder.new name .REAL

def textCol (name : String) : ColumnAddBuilder :=
  ColumnAddBuilder.new name .TEXT

def timestampCol (name : String) : ColumnAddBuilder :=
  ColumnAddBuilder.new name .TIMESTAMP

def timestampTzCol (name : String) : ColumnAddBuilder :=
  ColumnAddBuilder.new name .TIMESTAMPTZ

def integerCol (name : String) : ColumnAddBuilder :=
  ColumnAddBuilder.new name .INTEGER

def jsonbCol (name : String) : ColumnAddBuilder :=
  ColumnAddBuilder.new name .JSONB

/--
The closed set of leaf (column-level and index-level) instructions collected by
the Table accumulator, one constructor per Change-implementing struct of
column.rs and index.rs.
-/
inductive InnerChange
  | columnAdd (c : ColumnAddChange)
  | columnRename (name new_name : String)
  | columnAlter (name : String) (ct : ColumnType) (conversion_method : Option String)
  | columnDrop (name : String) (if_exists : Bool)
  | indexAddPrimary (columns : List String)
  | indexAddForeign (column_name foreign_table_name foreign_column_name : String)
      (idx_name : Option String) (add_clause : Bool)
  | indexAddUnique (constraint_name : String) (columns : List String)
  | indexAddCombined (table_name : String) (columns : List String) (idx_name : Option String)
deriving DecidableEq, Repr

/-- table.rs TableChangeOp enum. -/
inductive TableChangeOp
  | Create
  | CreateIfNotExists
  | Alter
  | Rename (new_table_name : String)
  | Drop
deriving DecidableEq, Repr

/--
Top-level changes held by a ChangeSet: a TableChange (table.rs) or a Script
(change.rs).  These are the only Change values the ChangeSet builder methods
produce.
-/
inductive Change
  | tableChange (operation : TableChangeOp) (name : String) (changes : List InnerChange)
  | script (s : String)
deriving DecidableEq, Repr

/--
table.rs TableChange new.  The source binds its second argument as _schema and
never uses it: TableChange stores only the operation, the name and the nested
changes.
-/
def TableChange.new (operation : TableChangeOp) (_schema : String) (name : String)
    (changes : List InnerChange) : Change :=
  .tableChange operation name changes

/--
sql_dialect/mod.rs SqlDialect trait, as a record of rendering functions.
Option-valued results model partiality: a none result stands for a rendering
that panics instead of returning (the todo in the Postgres add_index).  The
add_unique_constraint field is the method invoked by index.rs on the dialect
for IndexAddUniqueChange; the trait snapshot under src does not declare it, so
it is carried here as part of the interface that index.rs requires.
-/
structure SqlDialect where
  create_table : String → List String → Bool → Option String
  alter_table : String → List String → Option String
  rename_table : String → String → Option String
  drop_table : String → Option String
  add_column : String → Bool → ColumnType → Constraints → Option String
  rename_column : String → String → Option String
  alter_column : String → ColumnType → Option String → Option String
  drop_column : String → Bool → Option String
  add_index : String → List String → Option String → Option String
  add_foreign_index : String → String → String → Option String → Bool → Option String
  add_primary_index : List String → Option String
  column_type : ColumnType → Option String
  constraints : Constraints → Option String
  add_unique_constraint : String → List String → Option String

/-- sql_dialect/postgres.rs Postgres struct: carries its own schema name. -/
structure Postgres where
  schema : String
deriving DecidableEq, Repr

/-- Postgres new: schema defaults to public. -/
def Postgres.new : Postgres :=
  { schema := "public" }

def Postgres.create_table (p : Postgres) (name : String) (changes : List String)
    (if_not_exists : Bool) : String :=
  "CREATE TABLE " ++ (if if_not_exists then "IF NOT EXISTS " else "") ++ p.schema ++ ".\"" ++
    name ++ "\" (\n" ++ String.intercalate ",\n" changes ++ "\n);"

def Postgres.alter_table (p : Postgres) (name : String) (changes : List String) : String :=
  "ALTER TABLE " ++ p.schema ++ ".\"" ++ name ++ "\"\n" ++
    String.intercalate ",\n" changes ++ ";"

def Postgres.rename_table (p : Postgres) (name new_table_name : String) : String :=
  "ALTER TABLE " ++ p.schema ++ ".\"" ++ name ++ "\" RENAME TO " ++ p.schema ++ ".\"" ++
    new_table_name ++ "\";"

def Postgres.drop_table (p : Postgres) (name : String) : String :=
  "DROP TABLE " ++ p.schema ++ ".\"" ++ name ++ "\";"

def Postgres.column_type (_p : Postgres) (ct : ColumnType) : String :=
  match ct with
  | .UUID => "uuid"
  | .BOOL => "boolean"
  | .VARCHAR s => "VARCHAR(" ++ toString s ++ ")"
  | .REAL => "real"
  | .TEXT => "text"
  | .TIMESTAMP => "timestamp"
  | .TIMESTAMPTZ => "timestamp with time zone"
  | .INTEGER => "integer"
  | .JSONB => "jsonb"

/--
postgres.rs constraints: the four clause slots (inactive slots contribute the
empty string) are joined with single spaces, the join is trimmed, and a
nonempty result is prefixed with one space.
-/
def Postgres.constraints (_p : Postgres) (c : Constraints) : String :=
  let def_constraint : String :=
    match c.default with
    | .None => ""
    | .Plain s => "DEFAULT " ++ s
  let j := String.intercalate " "
    [if c.primary then "PRIMARY KEY" else "",
     if c.not_null then "NOT NULL" else "",
     if c.unique then "UNIQUE" else "",
     def_constraint]
  let t := rustTrim j
  if t = "" then "" else " " ++ t

def Postgres.add_column (p : Postgres) (name : String) (wp : Bool) (ct : ColumnType)
    (cs : Constraints) : String :=
  (if wp then "ADD COLUMN " else "") ++ "\"" ++ name ++ "\" " ++ p.column_type ct ++
    p.constraints cs

def Postgres.rename_column (_p : Postgres) (name new_name : String) : String :=
  "RENAME COLUMN \"" ++ name ++ "\" TO \"" ++ new_name ++ "\""

def Postgres.alter_column (p : Postgres) (name : String) (ct : ColumnType)
    (conversion_method : Option String) : String :=
  "ALTER COLUMN \"" ++ name ++ "\" TYPE " ++ p.column_type ct ++
    (match conversion_method with
     | some u => " USING " ++ u
     | none => "")

def Postgres.drop_column (_p : Postgres) (name : String) (if_exists : Bool) : String :=
  "DROP COLUMN " ++ (if if_exists then "IF EXISTS " else "") ++ "\"" ++ name ++ "\""

/--
postgres.rs add_index is a todo marker: calling it panics and the renderer
never returns, modelled as none.
-/
def Postgres.add_index (_p : Postgres) (_table_name : String) (_columns : List String)
    (_idx_name : Option String) : Option String :=
  none

def Postgres.add_foreign_index (_p : Postgres) (column_name foreign_table_name
    foreign_column_name : String) (idx_name : Option String) (add_clause : Bool) : String :=
  (if add_clause then "ADD " else "") ++
    (match idx_name with
     | some x => "CONSTRAINT " ++ x ++ " "
     | none => "") ++
    "FOREIGN KEY(\"" ++ column_name ++ "\") REFERENCES \"" ++ foreign_table_name ++
    "\"(\"" ++ foreign_column_name ++ "\")"

def Postgres.add_primary_index (_p : Postgres) (columns : List String) : String :=
  "PRIMARY KEY(" ++
    String.intercalate ", " (columns.map (fun c => "\"" ++ c ++ "\"")) ++ ")"

/--
Package a Postgres value as an SqlDialect record.  Every method of the src
implementation is total except add_index (a todo marker, none).  No Postgres
implementation of add_unique_constraint exists under src (the trait snapshot
does not declare the method), so that field is none: undefined for this
dialect.
-/
def Postgres.toDialect (p : Postgres) : SqlDialect where
  create_table := fun name changes ine => some (p.create_table name changes ine)
  alter_table := fun name changes => some (p.alter_table name changes)
  rename_table := fun name nn => some (p.rename_table name nn)
  drop_table := fun name => some (p.drop_table name)
  add_column := fun name wp ct cs => some (p.add_column name wp ct cs)
  rename_column := fun name nn => some (p.rename_column name nn)
  alter_column := fun name ct cm => some (p.alter_column name ct cm)
  drop_column := fun name ie => some (p.drop_column name ie)
  add_index := fun tn cols idx => p.add_index tn cols idx
  add_foreign_index := fun cn ftn fcn idx ac => some (p.add_foreign_index cn ftn fcn idx ac)
  add_primary_index := fun cols => some (p.add_primary_index cols)
  column_type := fun ct => some (p.column_type ct)
  constraints := fun c => some (p.constraints c)
  add_unique_constraint := fun _ _ => none

/-- Double dispatch of a leaf instruction to the dialect (column.rs, index.rs). -/
def InnerChange.get_ddl (c : InnerChange) (d : SqlDialect) : Option String :=
  match c with
  | .columnAdd ⟨name, ct, wp, cs⟩ => d.add_column name wp ct cs
  | .columnRename name new_name => d.rename_column name new_name
  | .columnAlter name ct cm => d.alter_column name ct cm
  | .columnDrop name ie => d.drop_column name ie
  | .indexAddPrimary cols => d.add_primary_index cols
  | .indexAddForeign cn ftn fcn idx ac => d.add_foreign_index cn ftn fcn idx ac
  | .indexAddUnique cn cols => d.add_unique_constraint cn cols
  | .indexAddCombined tn cols idx => d.add_index tn cols idx

/--
Render the nested instructions of a TableChange in order, as table.rs does by
mapping get_ddl over them; a panic (none) in any child aborts the whole
render.
-/
def renderInner (d : SqlDialect) : List InnerChange → Option (List String)
  | [] => some []
  | c :: cs => (c.get_ddl d).bind fun s => (renderInner d cs).map fun rest => s :: rest

/-- table.rs TableChange get_ddl and change.rs Script get_ddl. -/
def Change.get_ddl (c : Change) (d : SqlDialect) : Option String :=
  match c with
  | .script s => some (s ++ "\n")
  | .tableChange op name changes =>
    match op with
    | .Create => (renderInner d changes).bind fun cs => d.create_table name cs false
    | .CreateIfNotExists => (renderInner d changes).bind fun cs => d.create_table name cs true
    | .Alter => (renderInner d changes).bind fun cs => d.alter_table name cs
    | .Drop => d.drop_table name
    | .Rename new_table_name => d.rename_table name new_table_name

/-- Render a list of top-level changes in order (the map inside ChangeSet get_ddl). -/
def renderChanges (d : SqlDialect) : List Change → Option (List String)
  | [] => some []
  | c :: cs => (c.get_ddl d).bind fun s => (renderChanges d cs).map fun rest => s :: rest

/-- table.rs Table accumulator: plain changes and index changes, two lists. -/
structure Table where
  changes : List InnerChange
  idx_changes : List InnerChange
deriving DecidableEq, Repr

def Table.new : Table :=
  { changes := [], idx_changes := [] }

/-- table.rs Table get_changes: plain changes first, then index changes. -/
def Table.get_changes (t : Table) : List InnerChange :=
  t.changes ++ t.idx_changes

/-- column.rs ColumnAdd add_column (create capability): push unchanged. -/
def ColumnAdd.add_column (t : Table) (column : ColumnAddChange) : Table :=
  { t with changes := t.changes ++ [.columnAdd column] }

/-- column.rs ColumnAlter add_column (alter capability): set with_prefix, then push. -/
def ColumnAlter.add_column (t : Table) (column : ColumnAddChange) : Table :=
  { t with changes := t.changes ++ [.columnAdd { column with with_prefix := true }] }

def ColumnAlter.rename_column (t : Table) (name new_name : String) : Table :=
  { t with changes := t.changes ++ [.columnRename name new_name] }

def ColumnAlter.alter_column (t : Table) (column_name : String) (new_column_type : ColumnType)
    (conversion_method : Option String) : Table :=
  { t with changes := t.changes ++ [.columnAlter column_name new_column_type conversion_method] }

def ColumnDrop.drop_column (t : Table) (name : String) : Table :=
  { t with changes := t.changes ++ [.columnDrop name false] }

def ColumnDrop.drop_column_if_exists (t : Table) (name : String) : Table :=
  { t with changes := t.changes ++ [.columnDrop name true] }

/-- index.rs IndexAdd for Table (create capability): add_clause false. -/
def IndexAdd.add_foreign_index (t : Table) (column_name foreign_table_name
    foreign_column_name : String) (idx_name : Option String) : Table :=
  { t with idx_changes := t.idx_changes ++
      [.indexAddForeign column_name foreign_table_name foreign_column_name idx_name false] }

def IndexAdd.add_primary_index (t : Table) (columns : List String) : Table :=
  { t with idx_changes := t.idx_changes ++ [.indexAddPrimary columns] }

def IndexAdd.add_unique_constraint (t : Table) (constraint_name : String)
    (columns : List String) : Table :=
  { t with idx_changes := t.idx_changes ++ [.indexAddUnique constraint_name columns] }

/-- index.rs IndexAlter for Table (alter capability): add_clause true for foreign. -/
def IndexAlter.add_foreign_index (t : Table) (column_name foreign_table_name
    foreign_column_name : String) (idx_name : Option String) : Table :=
  { t with idx_changes := t.idx_changes ++
      [.indexAddForeign column_name foreign_table_name foreign_column_name idx_name true] }

def IndexAlter.add_primary_index (t : Table) (columns : List String) : Table :=
  { t with idx_changes := t.idx_changes ++ [.indexAddPrimary columns] }

def IndexAlter.add_unique_constraint (t : Table) (constraint_name : String)
    (columns : List String) : Table :=
  { t with idx_changes := t.idx_changes ++ [.indexAddUnique constraint_name columns] }

/-- change.rs ChangeSet: a schema and the ordered list of top-level changes. -/
structure ChangeSet where
  schema : String
  changes : List Change
deriving DecidableEq, Repr

/-- change.rs ChangeSet new (Default): schema public, no changes. -/
def ChangeSet.new : ChangeSet :=
  { schema := "public", changes := [] }

/--
change.rs ChangeSet create_table: run the handler on a fresh Table, then
append a TableChange built from the extracted changes (the schema argument is
passed along to TableChange new, which discards it).
-/
def ChangeSet.create_table (cs : ChangeSet) (name : String) (handler : Table → Table) :
    ChangeSet :=
  { cs with changes := cs.changes ++
      [TableChange.new .Create cs.schema name (Table.get_changes (handler Table.new))] }

def ChangeSet.alter_table (cs : ChangeSet) (name : String) (handler : Table → Table) :
    ChangeSet :=
  { cs with changes := cs.changes ++
      [TableChange.new .Alter cs.schema name (Table.get_changes (handler Table.new))] }

def ChangeSet.drop_table (cs : ChangeSet) (name : String) : ChangeSet :=
  { cs with changes := cs.changes ++ [TableChange.new .Drop cs.schema name []] }

def ChangeSet.rename_table (cs : ChangeSet) (name new_name : String) : ChangeSet :=
  { cs with changes := cs.changes ++
      [TableChange.new (.Rename new_name) cs.schema name []] }

def ChangeSet.run_script (cs : ChangeSet) (s : String) : ChangeSet :=
  { cs with changes := cs.changes ++ [.script s] }

/-- change.rs ChangeSet get_ddl: render every change in order, join with a blank line. -/
def ChangeSet.get_ddl (cs : ChangeSet) (d : SqlDialect) : Option String :=
  (renderChanges d cs.changes).map (String.intercalate "\n\n")

/--
One builder call on a Table handle, covering all the capability methods a
create_table or alter_table closure can invoke; constructors are named after
the trait implementation they call into.
-/
inductive TableOp
  | addColumn (c : ColumnAddChange)
  | alterAddColumn (c : ColumnAddChange)
  | renameColumn (name new_name : String)
  | alterColumn (name : String) (ct : ColumnType) (conversion_method : Option String)
  | dropColumn (name : String)
  | dropColumnIfExists (name : String)
  | addForeignIndex (column_name foreign_table_name foreign_column_name : String)
      (idx_name : Option String)
  | alterAddForeignIndex (column_name foreign_table_name foreign_column_name : String)
      (idx_name : Option String)
  | addPrimaryIndex (columns : List String)
  | alterAddPrimaryIndex (columns : List String)
  | addUniqueConstraint (constraint_name : String) (columns : List String)
  | alterAddUniqueConstraint (constraint_name : String) (columns : List String)
deriving DecidableEq, Repr

/-- Dispatch one builder call to the corresponding Table method. -/
def TableOp.apply (t : Table) : TableOp → Table
  | .addColumn c => ColumnAdd.add_column t c
  | .alterAddColumn c => ColumnAlter.add_column t c
  | .renameColumn n nn => ColumnAlter.rename_column t n nn
  | .alterColumn n ct cm => ColumnAlter.alter_column t n ct cm
  | .dropColumn n => ColumnDrop.drop_column t n
  | .dropColumnIfExists n => ColumnDrop.drop_column_if_exists t n
  | .addForeignIndex cn ftn fcn idx => IndexAdd.add_foreign_index t cn ftn fcn idx
  | .alterAddForeignIndex cn ftn fcn idx => IndexAlter.add_foreign_index t cn ftn fcn idx
  | .addPrimaryIndex cols => IndexAdd.add_primary_index t cols
  | .alterAddPrimaryIndex cols => IndexAlter.add_primary_index t cols
  | .addUniqueConstraint cn cols => IndexAdd.add_unique_constraint t cn cols
  | .alterAddUniqueConstraint cn cols => IndexAlter.add_unique_constraint t cn cols

/-- Run a sequence of builder calls on an accumulator, first call first. -/
def runTableOps : List TableOp → Table → Table
  | [], t => t
  | op :: ops, t => runTableOps ops (op.apply t)

/-- The plain (column-level) instruction a builder call pushes, if any. -/
def TableOp.plainChange : TableOp → Option InnerChange
  | .addColumn c => some (.columnAdd c)
  | .alterAddColumn c => some (.columnAdd { c with with_prefix := true })
  | .renameColumn n nn => some (.columnRename n nn)
  | .alterColumn n ct cm => some (.columnAlter n ct cm)
  | .dropColumn n => some (.columnDrop n false)
  | .dropColumnIfExists n => some (.columnDrop n true)
  | _ => none

/-- The index instruction a builder call pushes, if any. -/
def TableOp.idxChange : TableOp → Option InnerChange
  | .addForeignIndex cn ftn fcn idx => some (.indexAddForeign cn ftn fcn idx false)
  | .alterAddForeignIndex cn ftn fcn idx => some (.indexAddForeign cn ftn fcn idx true)
  | .addPrimaryIndex cols => some (.indexAddPrimary cols)
  | .alterAddPrimaryIndex cols => some (.indexAddPrimary cols)
  | .addUniqueConstraint cn cols => some (.indexAddUnique cn cols)
  | .alterAddUniqueConstraint cn cols => some (.indexAddUnique cn cols)
  | _ => none

lemma runTableOps_changes (ops : List TableOp) (t : Table) :
    (runTableOps ops t).changes = t.changes ++ ops.filterMap TableOp.plainChange
    ∧ (runTableOps ops t).idx_changes = t.idx_changes ++ ops.filterMap TableOp.idxChange := by
  induction ops generalizing t with
  | nil => simp [runTableOps]
  | cons op ops ih =>
    cases op <;>
      simp [runTableOps, TableOp.apply, TableOp.plainChange, TableOp.idxChange,
        ColumnAdd.add_column, ColumnAlter.add_column, ColumnAlter.rename_column,
        ColumnAlter.alter_column, ColumnDrop.drop_column, ColumnDrop.drop_column_if_exists,
        IndexAdd.add_foreign_index, IndexAdd.add_primary_index, IndexAdd.add_unique_constraint,
        IndexAlter.add_foreign_index, IndexAlter.add_primary_index,
        IndexAlter.add_unique_constraint, ih]

/-- One builder call on a ChangeSet. -/
inductive CsOp
  | createTable (name : String) (ops : List TableOp)
  | alterTable (name : String) (ops : List TableOp)
  | dropTable (name : String)
  | renameTable (name new_name : String)
  | runScript (s : String)
deriving DecidableEq, Repr

def CsOp.apply (cs : ChangeSet) : CsOp → ChangeSet
  | .createTable n ops => cs.create_table n (runTableOps ops)
  | .alterTable n ops => cs.alter_table n (runTableOps ops)
  | .dropTable n => cs.drop_table n
  | .renameTable n nn => cs.rename_table n nn
  | .runScript s => cs.run_script s

def runCsOps : List CsOp → ChangeSet → ChangeSet
  | [], cs => cs
  | op :: ops, cs => runCsOps ops (op.apply cs)

/-- The single top-level change each ChangeSet builder call appends. -/
def CsOp.toChange (schema : String) : CsOp → Change
  | .createTable n ops =>
      TableChange.new .Create schema n (Table.get_changes (runTableOps ops Table.new))
  | .alterTable n ops =>
      TableChange.new .Alter schema n (Table.get_changes (runTableOps ops Table.new))
  | .dropTable n => TableChange.new .Drop schema n []
  | .renameTable n nn => TableChange.new (.Rename nn) schema n []
  | .runScript s => .script s

lemma runCsOps_spec (ops : List CsOp) (cs : ChangeSet) :
    (runCsOps ops cs).schema = cs.schema
    ∧ (runCsOps ops cs).changes = cs.changes ++ ops.map (CsOp.toChange cs.schema) := by
  induction ops generalizing cs with
  | nil => simp [runCsOps]
  | cons op ops ih =>
    cases op <;>
      simp [runCsOps, CsOp.apply, CsOp.toChange, ChangeSet.create_table, ChangeSet.alter_table,
        ChangeSet.drop_table, ChangeSet.rename_table, ChangeSet.run_script, ih]

/-- s begins with the string p. -/
def startsWithStr (s p : String) : Prop :=
  ∃ suf, s = p ++ suf

/-- s contains the string tok somewhere (as a contiguous substring). -/
def containsToken (s tok : String) : Prop :=
  ∃ pre suf, s = pre ++ (tok ++ suf)

/--
Modelled from the claim C4 wording for comparison: the ACTIVE clauses only, in
the fixed order, joined by single spaces, preceded by one leading space, empty
when no clause is active.
-/
def specConstraintSuffix (c : Constraints) : String :=
  let clauses :=
    (if c.primary then ["PRIMARY KEY"] else []) ++
    (if c.not_null then ["NOT NULL"] else []) ++
    (if c.unique then ["UNIQUE"] else []) ++
    (match c.default with
     | .None => []
     | .Plain s => ["DEFAULT " ++ s])
  if clauses = [] then "" else " " ++ String.intercalate " " clauses

/--
The amended reading of C4: every clause slot is present in the single-space
join, an inactive slot contributing the empty string; the join is then trimmed
at the two ends and a nonempty result gets one leading space.
-/
def specConstraintSuffixGapped (c : Constraints) : String :=
  let slots : List (Option String) :=
    [if c.primary then some "PRIMARY KEY" else none,
     if c.not_null then some "NOT NULL" else none,
     if c.unique then some "UNIQUE" else none,
     match c.default with
     | .None => none
     | .Plain s => some ("DEFAULT " ++ s)]
  let t := rustTrim (String.intercalate " " (slots.map (fun o => o.getD "")))
  if t = "" then "" else " " ++ t

/--
Claim C1 (code_bug evidence): rendering the one (instruction, dialect) pair
that is undefined for the Postgres dialect, a generic secondary index through
add_index, does not return any value at all: the implementation is a todo
marker that panics, aborting the render (modelled as none), instead of
returning an Unsupported typed error to the caller as the specification
requires.  The failing input is table t, column list [id], no index name.
-/
theorem postgres_add_index_aborts :
    Postgres.add_index Postgres.new "t" ["id"] none = none
    ∧ Change.get_ddl (.tableChange .Create "t" [.indexAddCombined "t" ["id"] none])
        (Postgres.toDialect Postgres.new) = none :=
  ⟨rfl, rfl⟩

/--
Claim C2 counterexample: a ChangeSet whose schema field is myschema still
renders its drop_table through the Postgres dialect with the public schema.
The schema stored in the ChangeSet is therefore not the one used by rendering,
refuting the claim at this concrete input.
-/
theorem tablechange_schema_discarded_cex :
    (ChangeSet.drop_table ⟨"myschema", []⟩ "t").get_ddl (Postgres.toDialect Postgres.new)
      = some "DROP TABLE public.\"t\";"
    ∧ (ChangeSet.drop_table ⟨"myschema", []⟩ "t").get_ddl (Postgres.toDialect Postgres.new)
      ≠ some "DROP TABLE myschema.\"t\";" := by
  exact ⟨rfl, by decide⟩

/--
Claim C2 as amended: the builder methods do pass the ChangeSet schema to
TableChange new, but TableChange new discards that argument (the resulting
change is the same for any two schema strings), and the schema that appears in
the rendered text is the dialect own schema field.
-/
theorem tablechange_schema_irrelevant (op : TableChangeOp) (s₁ s₂ name : String)
    (ch : List InnerChange) (p : Postgres) (n : String) :
    TableChange.new op s₁ name ch = TableChange.new op s₂ name ch
    ∧ (ChangeSet.drop_table ⟨s₁, []⟩ n).get_ddl (Postgres.toDialect p)
      = some ("DROP TABLE " ++ p.schema ++ ".\"" ++ n ++ "\";") :=
  ⟨rfl, rfl⟩

/--
Claim C3 counterexample: add_primary_index with an empty column list does not
fail; get_ddl returns the degenerate text PRIMARY KEY() inside the CREATE
TABLE statement instead of an InvalidConfiguration error.
-/
theorem empty_primary_index_renders_text_cex :
    ChangeSet.get_ddl
        (ChangeSet.create_table ChangeSet.new "t" (fun tb => IndexAdd.add_primary_index tb []))
        (Postgres.toDialect Postgres.new)
      = some "CREATE TABLE public.\"t\" (\nPRIMARY KEY()\n);"
    ∧ ChangeSet.get_ddl
        (ChangeSet.create_table ChangeSet.new "t" (fun tb => IndexAdd.add_primary_index tb []))
        (Postgres.toDialect Postgres.new) ≠ none :=
  ⟨rfl, by decide⟩

/--
Claim C3 as amended: an empty column list is not validated anywhere; the
Postgres dialect renders it as the clause PRIMARY KEY() and get_ddl returns
the surrounding statement as ordinary text, for every schema and table name.
No InvalidConfiguration error channel exists in the code.
-/
theorem empty_primary_index_no_error (p : Postgres) (name : String) :
    ChangeSet.get_ddl
        (ChangeSet.create_table ChangeSet.new name (fun tb => IndexAdd.add_primary_index tb []))
        (Postgres.toDialect p)
      = some (Postgres.create_table p name ["PRIMARY KEY()"] false)
    ∧ Postgres.add_primary_index p [] = "PRIMARY KEY()" :=
  ⟨rfl, rfl⟩

/--
Claim C4 counterexample: for primary=true, not_null=false, unique=true,
default=None the code renders the suffix with TWO spaces between PRIMARY KEY
and UNIQUE, because the inactive not_null slot contributes an empty string to
the single-space join; the claim predicts the inactive clause is omitted and
the active clauses are single-space joined.
-/
theorem constraints_double_space_cex :
    Postgres.constraints Postgres.new ⟨true, false, true, .None⟩ = " PRIMARY KEY  UNIQUE"
    ∧ specConstraintSuffix ⟨true, false, true, .None⟩ = " PRIMARY KEY UNIQUE"
    ∧ Postgres.constraints Postgres.new ⟨true, false, true, .None⟩
      ≠ specConstraintSuffix ⟨true, false, true, .None⟩ := by
  exact ⟨rfl, rfl, by decide⟩

/--
Claim C4 as amended: the suffix presents the active clauses in the fixed order
PRIMARY KEY, NOT NULL, UNIQUE, DEFAULT expr, but every inactive slot still
contributes an empty string to the single-space join, so an inactive slot
between two active ones yields extra interior spaces; the join is trimmed at
the ends and a nonempty result gets exactly one leading space, the empty
string resulting when all four are inactive; in the all-active case the suffix
is exactly the one the claim states.
-/
theorem constraints_gap_aware_order (p : Postgres) (c : Constraints) :
    Postgres.constraints p c = specConstraintSuffixGapped c
    ∧ Postgres.constraints p ⟨true, true, true, .Plain "x"⟩
      = " PRIMARY KEY NOT NULL UNIQUE DEFAULT x"
    ∧ Postgres.constraints p ⟨false, false, false, .None⟩ = "" := by
  refine ⟨?_, rfl, rfl⟩
  rcases c with ⟨cp, cn, cu, cd⟩
  cases cp <;> cases cn <;> cases cu <;> cases cd <;> rfl

/--
Claim C5 counterexample: a column whose caller-supplied name contains the text
ADD COLUMN, added through the create capability, renders to text that does
contain an ADD COLUMN token, refuting the claim that create-added columns
never contain that token.
-/
theorem create_column_contains_add_column_cex :
    ChangeSet.get_ddl
        (ChangeSet.create_table ChangeSet.new "t" (fun tb =>
          ColumnAdd.add_column tb (ColumnAddBuilder.build (uuid "y ADD COLUMN z"))))
        (Postgres.toDialect Postgres.new)
      = some "CREATE TABLE public.\"t\" (\n\"y ADD COLUMN z\" uuid\n);"
    ∧ containsToken "CREATE TABLE public.\"t\" (\n\"y ADD COLUMN z\" uuid\n);" "ADD COLUMN" := by
  refine ⟨rfl, ⟨"CREATE TABLE public.\"t\" (\n\"y ", ⟨" z\" uuid\n);", by decide⟩⟩⟩

/--
Claim C5 as amended: with_prefix is true exactly when the column went through
the alter capability (the create capability pushes the builder-produced column
with with_prefix still false, the alter capability pushes it with with_prefix
set to true), and rendering prepends the ADD COLUMN prefix exactly when
with_prefix is set: the alter-added rendering is the string ADD COLUMN
followed by the create-added rendering, and the create-added rendering never
STARTS with the ADD COLUMN token (it starts with the opening double quote of
the column name), though the token may still occur inside caller-supplied
text.
-/
theorem with_prefix_iff_alter (name : String) (ct : ColumnType) (cs : Constraints)
    (tb : Table) (p : Postgres) :
    (ColumnAdd.add_column tb ⟨name, ct, false, cs⟩).changes
      = tb.changes ++ [InnerChange.columnAdd ⟨name, ct, false, cs⟩]
    ∧ (ColumnAlter.add_column tb ⟨name, ct, false, cs⟩).changes
      = tb.changes ++ [InnerChange.columnAdd ⟨name, ct, true, cs⟩]
    ∧ Postgres.add_column p name true ct cs = "ADD COLUMN " ++ Postgres.add_column p name false ct cs
    ∧ ¬ startsWithStr (Postgres.add_column p name false ct cs) "ADD COLUMN" := by
  refine ⟨rfl, rfl, rfl, ?_⟩
  rintro ⟨suf, h⟩
  have h1 := congrArg (fun s => (String.data s).take 1) h
  have h2 : "\"".data = "A".data := h1
  exact absurd h2 (by decide)

/--
Claim C6: however a create_table or alter_table closure interleaves plain
column operations with index operations, the extracted change list is all the
plain changes in insertion order followed by all the index changes in
insertion order, and that is the nested list stored in the appended CREATE or
ALTER table change (hence the order in which they render inside the
statement).
-/
theorem plain_changes_before_index_changes (ops : List TableOp) (cs : ChangeSet)
    (name : String) :
    Table.get_changes (runTableOps ops Table.new)
      = ops.filterMap TableOp.plainChange ++ ops.filterMap TableOp.idxChange
    ∧ (cs.create_table name (runTableOps ops)).changes
      = cs.changes ++ [Change.tableChange .Create name
          (ops.filterMap TableOp.plainChange ++ ops.filterMap TableOp.idxChange)]
    ∧ (cs.alter_table name (runTableOps ops)).changes
      = cs.changes ++ [Change.tableChange .Alter name
          (ops.filterMap TableOp.plainChange ++ ops.filterMap TableOp.idxChange)] := by
  have h := runTableOps_changes ops Table.new
  simp only [Table.new] at h
  refine ⟨?_, ?_, ?_⟩ <;>
    simp [Table.get_changes, ChangeSet.create_table, ChangeSet.alter_table, TableChange.new,
      Table.new, h.1, h.2]

/--
Claim C7: any sequence of builder calls on a fresh ChangeSet yields exactly
one top-level change per call, in call order, and get_ddl renders that list in
order and joins the rendered strings with a blank line; concretely, the
drop_table-then-run_script sequence of the change.rs doctest renders the two
statements in call order separated by one blank line.
-/
theorem changeset_insertion_order (ops : List CsOp) (d : SqlDialect) :
    (runCsOps ops ChangeSet.new).changes = ops.map (CsOp.toChange "public")
    ∧ (runCsOps ops ChangeSet.new).get_ddl d
      = (renderChanges d (ops.map (CsOp.toChange "public"))).map (String.intercalate "\n\n")
    ∧ ChangeSet.get_ddl
        (runCsOps [.dropTable "my_table", .runScript "DDL INSTRUCTION;"] ChangeSet.new)
        (Postgres.toDialect Postgres.new)
      = some "DROP TABLE public.\"my_table\";\n\nDDL INSTRUCTION;\n" := by
  have h := runCsOps_spec ops ChangeSet.new
  refine ⟨?_, ?_, rfl⟩
  · simpa [ChangeSet.new] using h.2
  · simp only [ChangeSet.get_ddl]
    rw [h.2]
    simp [ChangeSet.new]

/--
Claim C8: the end-to-end scenario — create_table tag with a uuid id column
marked primary and a varchar description column of default size — renders
under the Postgres dialect exactly as the claim states.
-/
theorem create_table_tag_end_to_end :
    ChangeSet.get_ddl
        (ChangeSet.create_table ChangeSet.new "tag" (fun tb =>
          ColumnAdd.add_column
            (ColumnAdd.add_column tb
              (ColumnAddBuilder.build (ColumnAddBuilder.primary (uuid "id") true)))
            (ColumnAddBuilder.build (varchar "description" none))))
        (Postgres.toDialect Postgres.new)
      = some "CREATE TABLE public.\"tag\" (\n\"id\" uuid PRIMARY KEY,\n\"description\" VARCHAR(255)\n);" :=
  rfl

/--
Claim C9: a run_script change renders, for every script string and every
dialect, as exactly the script text followed by one newline; no quoting or
dialect-dependent transformation is applied, so the output is independent of
the dialect.
-/
theorem run_script_verbatim (s : String) (d : SqlDialect) :
    Change.get_ddl (.script s) d = some (s ++ "\n")
    ∧ (ChangeSet.run_script ChangeSet.new s).get_ddl d = some (s ++ "\n") :=
  ⟨rfl, rfl⟩

/--
Claim C10: for every column list and constraint name, the create capability
and the alter capability push identical primary-index and unique-constraint
instructions (so rendering them gives the same text under any dialect), and
the Postgres primary-index rendering carries no ADD prefix; add_foreign_index
differs between the two capabilities exactly in the add_clause flag, which
makes the Postgres alter-side rendering the create-side rendering prefixed
with ADD.
-/
theorem index_capabilities_agree (t : Table) (cols : List String)
    (cn n ftn fcn : String) (idx : Option String) (p : Postgres) (d : SqlDialect) :
    IndexAdd.add_primary_index t cols = IndexAlter.add_primary_index t cols
    ∧ IndexAdd.add_unique_constraint t cn cols = IndexAlter.add_unique_constraint t cn cols
    ∧ (InnerChange.indexAddPrimary cols).get_ddl d = d.add_primary_index cols
    ∧ Postgres.add_primary_index p cols
      = "PRIMARY KEY(" ++ String.intercalate ", " (cols.map (fun c => "\"" ++ c ++ "\"")) ++ ")"
    ∧ IndexAdd.add_foreign_index t n ftn fcn idx
      = { t with idx_changes := t.idx_changes ++ [.indexAddForeign n ftn fcn idx false] }
    ∧ IndexAlter.add_foreign_index t n ftn fcn idx
      = { t with idx_changes := t.idx_changes ++ [.indexAddForeign n ftn fcn idx true] }
    ∧ Postgres.add_foreign_index p n ftn fcn idx true
      = "ADD " ++ Postgres.add_foreign_index p n ftn fcn idx false :=
  ⟨rfl, rfl, rfl, rfl, rfl, rfl, rfl⟩

end SqlPress
